import Mathlib

/-!
Verification of the Waitlist backend (`src/backend/api.py`), a FastAPI
adapter that provisions users in Keycloak through its admin REST API.

The embedding models each upstream HTTP interaction by the data the code
inspects: the token endpoint's status and `access_token`, the creation
call's status and `Location` header, the conflict lookup's status and JSON
array, and the password-reset status.  Every operation returns the list of
outbound calls it issued together with either an `HTTPException` (as raised
by the Python code) or its result, so frame properties about which calls
are made are statable.
-/

namespace Waitlist

/-- A JSON scalar appearing as a value of the creation payload dict. -/
inductive JVal where
  | s (v : String)
  | b (v : Bool)
  deriving DecidableEq, Repr

/-- One element of the JSON array returned by the conflict lookup
(`GET .../users?username=...`); `id` is `r.json()[0].get("id")`,
absent when the object has no `"id"` key. -/
structure KCUser where
  id : Option String
  deriving DecidableEq, Repr

/-- The token endpoint's answer: HTTP status and the `access_token`
field of its JSON body. -/
structure TokenResp where
  status_code : Nat
  access_token : String
  deriving DecidableEq, Repr

/-- The user-creation call's answer: HTTP status and
`resp.headers.get("Location", "")` (so a missing header is `""`). -/
structure CreateResp where
  status_code : Nat
  location : String
  deriving DecidableEq, Repr

/-- The conflict lookup's answer: HTTP status and the JSON array body. -/
structure LookupResp where
  status_code : Nat
  body : List KCUser
  deriving DecidableEq, Repr

/-- The identity service's behaviour for one request: the answers it would
give to each of the four possible outbound calls. -/
structure Upstream where
  token : TokenResp
  create : CreateResp
  lookup : LookupResp
  resetStatus : Nat
  deriving DecidableEq, Repr

/-- `fastapi.HTTPException(status_code, detail)`. -/
structure HTTPException where
  status_code : Nat
  detail : String
  deriving DecidableEq, Repr

/-- The JSON body of the reset-password call:
`{"type": "password", "value": password, "temporary": temporary}`. -/
structure ResetBody where
  type : String
  value : String
  temporary : Bool
  deriving DecidableEq, Repr

/-- An outbound call to the identity service, carrying the data the code
puts into it. -/
inductive Call where
  | tokenCall
  | createCall (payload : List (String × JVal))
  | lookupCall (username : Option JVal)
  | resetCall (user_id : Option String) (body : ResetBody)
  deriving DecidableEq, Repr

/-- The inbound request model `UserCreate` (pydantic), with the source's
defaults: optional fields default to `None`, `enabled=True`,
`emailVerified=False`. -/
structure UserCreate where
  username : String
  email : Option String := none
  firstName : Option String := none
  lastName : Option String := none
  password : Option String := none
  enabled : Bool := true
  emailVerified : Bool := false
  deriving DecidableEq, Repr

/-- `KEYCLOAK_REALM` with its default value. -/
def KEYCLOAK_REALM : String := "master"

/-- Python truthiness of an optional string: `None` and `""` are falsy. -/
def pyTruthy : Option String → Bool
  | none => false
  | some s => s != ""

/-- `get_admin_token`: POST to the token endpoint; non-200 raises
`HTTPException(502, "Failed to obtain Keycloak admin token")`, otherwise
the `access_token` field is returned. -/
def get_admin_token (env : Upstream) : List Call × Except HTTPException String :=
  if env.token.status_code ≠ 200 then
    ([Call.tokenCall], Except.error ⟨502, "Failed to obtain Keycloak admin token"⟩)
  else
    ([Call.tokenCall], Except.ok env.token.access_token)

/-- `location.rstrip("/").split("/")[-1] if location else ""`. -/
def extractId (location : String) : String :=
  if location = "" then ""
  else (((location.dropRightWhile (fun c => c == '/')).splitOn "/").getLastD "")

/-- `payload.get(k)` on the creation payload dict. -/
def payloadGet (payload : List (String × JVal)) (k : String) : Option JVal :=
  (payload.find? (fun kv => kv.1 = k)).map Prod.snd

/-- `create_keycloak_user`: POST the payload; on 201 the id comes from the
`Location` header; on 409 a lookup by username is made, a 200 answer with a
non-empty array yields its first element's `id`, anything else raises
`HTTPException(409, "User already exists")`; any other creation status
raises `HTTPException(502, "Failed to create user in Keycloak")`. -/
def create_keycloak_user (env : Upstream) (token realm : String)
    (payload : List (String × JVal)) : List Call × Except HTTPException (Option String) :=
  if env.create.status_code = 201 then
    ([Call.createCall payload], Except.ok (some (extractId env.create.location)))
  else if env.create.status_code = 409 then
    let calls := [Call.createCall payload, Call.lookupCall (payloadGet payload "username")]
    if env.lookup.status_code = 200 ∧ env.lookup.body ≠ [] then
      (calls, Except.ok (env.lookup.body.headD ⟨none⟩).id)
    else
      (calls, Except.error ⟨409, "User already exists"⟩)
  else
    ([Call.createCall payload], Except.error ⟨502, "Failed to create user in Keycloak"⟩)

/-- `set_user_password`: early return on an empty password, otherwise a PUT
with body `{"type": "password", "value": password, "temporary": temporary}`;
any status other than 204 raises
`HTTPException(502, "Failed to set user password")`. -/
def set_user_password (env : Upstream) (token realm : String) (user_id : Option String)
    (password : String) (temporary : Bool) : List Call × Except HTTPException Unit :=
  if password = "" then
    ([], Except.ok ())
  else
    let body : ResetBody := ⟨"password", password, temporary⟩
    if env.resetStatus = 204 then
      ([Call.resetCall user_id body], Except.ok ())
    else
      ([Call.resetCall user_id body], Except.error ⟨502, "Failed to set user password"⟩)

/-- The payload dict built in `create_user` before `None` removal. -/
def rawPayload (u : UserCreate) : List (String × Option JVal) :=
  [("username", some (JVal.s u.username)),
   ("email", u.email.map JVal.s),
   ("firstName", u.firstName.map JVal.s),
   ("lastName", u.lastName.map JVal.s),
   ("enabled", some (JVal.b u.enabled)),
   ("emailVerified", some (JVal.b u.emailVerified))]

/-- `{k: v for k, v in payload.items() if v is not None}`. -/
def sanitizePayload (p : List (String × Option JVal)) : List (String × JVal) :=
  p.filterMap (fun kv => kv.2.map (fun v => (kv.1, v)))

/-- The keys of a payload dict. -/
def payloadKeys (p : List (String × JVal)) : List String :=
  p.map Prod.fst

/-- The success body `{"id": user_id, "username": u.username}` of
`POST /users` (`id` can be JSON null when the conflict lookup's first
element lacked an `"id"` key). -/
structure UserResponse where
  id : Option String
  username : String
  deriving DecidableEq, Repr

/-- The `POST /users` handler `create_user`: token exchange, payload
sanitization, creation (with conflict resolution), then the password set
when `u.password` is truthy, finally the `{id, username}` body. -/
def create_user (env : Upstream) (u : UserCreate) :
    List Call × Except HTTPException UserResponse :=
  match get_admin_token env with
  | (c1, Except.error e) => (c1, Except.error e)
  | (c1, Except.ok token) =>
    let payload := sanitizePayload (rawPayload u)
    match create_keycloak_user env token KEYCLOAK_REALM payload with
    | (c2, Except.error e) => (c1 ++ c2, Except.error e)
    | (c2, Except.ok user_id) =>
      if pyTruthy u.password then
        match set_user_password env token KEYCLOAK_REALM user_id (u.password.getD "") false with
        | (c3, Except.error e) => (c1 ++ c2 ++ c3, Except.error e)
        | (c3, Except.ok _) => (c1 ++ c2 ++ c3, Except.ok ⟨user_id, u.username⟩)
      else
        (c1 ++ c2, Except.ok ⟨user_id, u.username⟩)

/-- Shared helper: the body of every success response of `POST /users` is
determined by the upstream environment together with the request's
username — on a 201 the id comes from the `Location` header, otherwise
(the 409 path) from the lookup's first element. -/
theorem create_user_ok_id (env : Upstream) (u : UserCreate) (r : UserResponse)
    (h : (create_user env u).2 = Except.ok r) :
    r = ⟨(if env.create.status_code = 201 then some (extractId env.create.location)
          else (env.lookup.body.headD ⟨none⟩).id), u.username⟩ := by
  unfold create_user get_admin_token create_keycloak_user set_user_password at h
  split_ifs at h <;> simp_all

/-- C1 counterexample: with a password supplied and a password-reset answer
of 500, the very scenario of the claim (creation 409, lookup 200 with first
element `id = "abc-123"`) ends in an HTTP 502 error: the pipeline does not
return the identifier without error for every such request. -/
theorem C1_counterexample :
    (create_user ⟨⟨200, "t"⟩, ⟨409, ""⟩, ⟨200, [⟨some "abc-123"⟩]⟩, 500⟩
        { username := "alice", password := some "pw" }).2
      = Except.error ⟨502, "Failed to set user password"⟩ := by rfl

/-- Claim C1 (amended): when the creation call answers 409 and the lookup
answers 200 with a first element carrying `id = "abc-123"`, the pipeline
returns that identifier as the response's id without error — provided the
password-reset call, when one is issued at all, answers 204. -/
theorem C1_conflict_returns_existing_id (env : Upstream) (u : UserCreate) (rest : List KCUser)
    (htok : env.token.status_code = 200)
    (hcre : env.create.status_code = 409)
    (hlk : env.lookup.status_code = 200)
    (hbody : env.lookup.body = ⟨some "abc-123"⟩ :: rest)
    (hpw : pyTruthy u.password = true → env.resetStatus = 204) :
    (create_user env u).2 = Except.ok ⟨some "abc-123", u.username⟩ := by
  unfold create_user get_admin_token create_keycloak_user set_user_password
  split_ifs <;> simp_all

/-- C1 witness: the amended claim instantiated at a concrete request and
environment. -/
theorem C1_witness :
    (create_user ⟨⟨200, "t"⟩, ⟨409, ""⟩, ⟨200, [⟨some "abc-123"⟩]⟩, 204⟩
        { username := "bob" }).2 = Except.ok ⟨some "abc-123", "bob"⟩ :=
  C1_conflict_returns_existing_id _ _ [] rfl rfl rfl rfl (fun _ => rfl)

/-- C2 counterexample: a lookup answering 200 with a non-empty array whose
first element has no `"id"` key does not yield an existing identifier, yet
the pipeline does not fail with 409: it succeeds with a null id. -/
theorem C2_counterexample :
    (create_user ⟨⟨200, "t"⟩, ⟨409, ""⟩, ⟨200, [⟨none⟩]⟩, 204⟩ { username := "alice" }).2
      = Except.ok ⟨none, "alice"⟩ := by rfl

/-- Claim C2 (amended): when the creation call answers 409 and the lookup
is inconclusive in the sense of the code — a non-200 status or an empty
array — the pipeline fails with exactly
`HTTPException(409, "User already exists")`, never the generic 502. -/
theorem C2_inconclusive_lookup_is_conflict (env : Upstream) (u : UserCreate)
    (htok : env.token.status_code = 200)
    (hcre : env.create.status_code = 409)
    (hlk : env.lookup.status_code ≠ 200 ∨ env.lookup.body = []) :
    (create_user env u).2 = Except.error ⟨409, "User already exists"⟩ := by
  have hcond : ¬(env.lookup.status_code = 200 ∧ env.lookup.body ≠ []) := by
    rcases hlk with h | h
    · exact fun hc => h hc.1
    · exact fun hc => hc.2 h
  unfold create_user get_admin_token create_keycloak_user
  split_ifs <;> simp_all

/-- C2 witness: a concrete 409 with a failing lookup ends in the 409
conflict error. -/
theorem C2_witness :
    (create_user ⟨⟨200, "t"⟩, ⟨409, ""⟩, ⟨500, []⟩, 204⟩ { username := "alice" }).2
      = Except.error ⟨409, "User already exists"⟩ :=
  C2_inconclusive_lookup_is_conflict _ _ rfl rfl (Or.inr rfl)

/-- Claim C3: a 201 creation answer with an empty (or absent) `Location`
header does not make the provisioner fail: it returns the empty-string
identifier, and any success response of the endpoint then carries
`id = ""`. -/
theorem C3_missing_location_yields_empty_id (env : Upstream) (u : UserCreate)
    (hcre : env.create.status_code = 201)
    (hloc : env.create.location = "") :
    (∀ tok realm payload,
        (create_keycloak_user env tok realm payload).2 = Except.ok (some ""))
    ∧ ∀ r, (create_user env u).2 = Except.ok r → r.id = some "" := by
  constructor
  · intro tok realm payload
    simp [create_keycloak_user, hcre, hloc, extractId]
  · intro r hr
    rw [create_user_ok_id env u r hr]
    simp [hcre, hloc, extractId]

/-- C3 witness: the claim instantiated at a concrete environment whose
creation answer is 201 with an empty `Location`. -/
theorem C3_witness :
    (∀ tok realm payload,
        (create_keycloak_user ⟨⟨200, "t"⟩, ⟨201, ""⟩, ⟨200, []⟩, 204⟩
            tok realm payload).2 = Except.ok (some ""))
    ∧ ∀ r, (create_user ⟨⟨200, "t"⟩, ⟨201, ""⟩, ⟨200, []⟩, 204⟩
        { username := "alice" }).2 = Except.ok r → r.id = some "" :=
  C3_missing_location_yields_empty_id _ _ rfl rfl

/-- Claim C4: when the token endpoint answers anything but 200, the
pipeline fails with `HTTPException(502, "Failed to obtain Keycloak admin
token")` and no creation call is ever issued. -/
theorem C4_token_failure_blocks_creation (env : Upstream) (u : UserCreate)
    (h : env.token.status_code ≠ 200) :
    (create_user env u).2 = Except.error ⟨502, "Failed to obtain Keycloak admin token"⟩
    ∧ ∀ p, Call.createCall p ∉ (create_user env u).1 := by
  have hcu : create_user env u =
      ([Call.tokenCall], Except.error ⟨502, "Failed to obtain Keycloak admin token"⟩) := by
    unfold create_user get_admin_token
    split_ifs <;> simp_all
  rw [hcu]
  exact ⟨rfl, by intro p hp; simp at hp⟩

/-- C4 witness: a 401 token answer at a concrete request. -/
theorem C4_witness :
    (create_user ⟨⟨401, "t"⟩, ⟨201, "u/1"⟩, ⟨200, []⟩, 204⟩ { username := "alice" }).2
      = Except.error ⟨502, "Failed to obtain Keycloak admin token"⟩
    ∧ ∀ p, Call.createCall p ∉
        (create_user ⟨⟨401, "t"⟩, ⟨201, "u/1"⟩, ⟨200, []⟩, 204⟩ { username := "alice" }).1 :=
  C4_token_failure_blocks_creation _ _ (by decide)

/-- Claim C5: an omitted optional field leaves no key in the sanitized
creation payload — none for `email`, `firstName` or `lastName` when the
corresponding request field is `None`. -/
theorem C5_omitted_optional_fields_absent (u : UserCreate) :
    (u.email = none → "email" ∉ payloadKeys (sanitizePayload (rawPayload u)))
    ∧ (u.firstName = none → "firstName" ∉ payloadKeys (sanitizePayload (rawPayload u)))
    ∧ (u.lastName = none → "lastName" ∉ payloadKeys (sanitizePayload (rawPayload u))) := by
  refine ⟨fun h => ?_, fun h => ?_, fun h => ?_⟩ <;>
    cases he : u.email <;> cases hf : u.firstName <;> cases hl : u.lastName <;>
      simp_all [rawPayload, sanitizePayload, payloadKeys]

/-- Claim C6: the password is never echoed back — two successful runs that
differ only in the supplied password (same upstream answers) have equal
response bodies, whose only fields are `id` and `username`. -/
theorem C6_password_never_echoed (env : Upstream) (u : UserCreate)
    (p1 p2 : Option String) (r1 r2 : UserResponse)
    (h1 : (create_user env { u with password := p1 }).2 = Except.ok r1)
    (h2 : (create_user env { u with password := p2 }).2 = Except.ok r2) :
    r1 = r2 := by
  rw [create_user_ok_id _ _ _ h1, create_user_ok_id _ _ _ h2]

/-- C6 witness: two concrete runs, one with a password and one without,
produce the same successful body. -/
theorem C6_witness :
    ({ id := some "", username := "alice" } : UserResponse)
      = { id := some "", username := "alice" } :=
  C6_password_never_echoed ⟨⟨200, "t"⟩, ⟨201, ""⟩, ⟨200, []⟩, 204⟩
    { username := "alice" } (some "pw") none _ _ (by rfl) (by rfl)

/-- Claim C7: with no password supplied, no password-reset call is issued
and the outbound calls are limited to the token exchange, the creation
call and the conflict lookup. -/
theorem C7_no_password_no_reset_call (env : Upstream) (u : UserCreate)
    (h : u.password = none) :
    (∀ i b, Call.resetCall i b ∉ (create_user env u).1)
    ∧ ∀ c ∈ (create_user env u).1,
        c = Call.tokenCall ∨ (∃ p, c = Call.createCall p) ∨ ∃ q, c = Call.lookupCall q := by
  constructor
  · intro i b
    unfold create_user get_admin_token create_keycloak_user set_user_password
    split_ifs <;> simp_all [pyTruthy]
  · intro c hc
    unfold create_user get_admin_token create_keycloak_user set_user_password at hc
    split_ifs at hc <;> simp_all [pyTruthy] <;>
      rcases hc with rfl | rfl | rfl <;> simp

/-- C7 witness: the claim instantiated at a concrete password-free request
on the conflict path. -/
theorem C7_witness :
    (∀ i b, Call.resetCall i b ∉
        (create_user ⟨⟨200, "t"⟩, ⟨409, ""⟩, ⟨200, [⟨some "u1"⟩]⟩, 500⟩
          { username := "alice" }).1)
    ∧ ∀ c ∈ (create_user ⟨⟨200, "t"⟩, ⟨409, ""⟩, ⟨200, [⟨some "u1"⟩]⟩, 500⟩
        { username := "alice" }).1,
        c = Call.tokenCall ∨ (∃ p, c = Call.createCall p) ∨ ∃ q, c = Call.lookupCall q :=
  C7_no_password_no_reset_call _ _ rfl

/-- Claim C8: every password-reset call the pipeline issues carries a body
with `type = "password"` and `temporary = false`; for a non-empty password
the setter succeeds exactly on a 204 answer, any other answer raises
`HTTPException(502, "Failed to set user password")`, and a pipeline that
issued a reset call under a non-204 answer fails with that same error. -/
theorem C8_password_reset_contract (env : Upstream) (u : UserCreate)
    (tok realm pw : String) (uid : Option String) (tmp : Bool)
    (hpw : pw ≠ "") :
    (∀ i b, Call.resetCall i b ∈ (create_user env u).1 →
        b.type = "password" ∧ b.temporary = false)
    ∧ ((set_user_password env tok realm uid pw tmp).2 = Except.ok () ↔ env.resetStatus = 204)
    ∧ (env.resetStatus ≠ 204 →
        (set_user_password env tok realm uid pw tmp).2
          = Except.error ⟨502, "Failed to set user password"⟩)
    ∧ (env.resetStatus ≠ 204 → ∀ i b, Call.resetCall i b ∈ (create_user env u).1 →
        (create_user env u).2 = Except.error ⟨502, "Failed to set user password"⟩) := by
  refine ⟨?_, ?_, ?_, ?_⟩
  · intro i b hb
    unfold create_user get_admin_token create_keycloak_user set_user_password at hb
    split_ifs at hb <;> simp_all
  · unfold set_user_password
    split_ifs <;> simp_all
  · intro hr
    unfold set_user_password
    split_ifs <;> simp_all
  · intro hr i b hb
    unfold create_user get_admin_token create_keycloak_user set_user_password at hb ⊢
    split_ifs at hb ⊢ <;> simp_all

/-- C8 witness: the setter's 204 equivalence at a concrete call. -/
theorem C8_witness :
    (set_user_password ⟨⟨200, "t"⟩, ⟨201, "users/u1"⟩, ⟨200, []⟩, 204⟩
        "t" "r" (some "u1") "pw" false).2 = Except.ok ()
      ↔ (⟨⟨200, "t"⟩, ⟨201, "users/u1"⟩, ⟨200, []⟩, 204⟩ : Upstream).resetStatus = 204 :=
  (C8_password_reset_contract ⟨⟨200, "t"⟩, ⟨201, "users/u1"⟩, ⟨200, []⟩, 204⟩
    { username := "alice" } "t" "r" "pw" (some "u1") false (by decide)).2.1

/-- Claim C9: a present-but-empty password is treated exactly like an
absent one — the whole run (calls and outcome) is identical, the setter
itself early-returns on an empty password without issuing a call, and no
reset call appears in the trace. -/
theorem C9_empty_password_like_none (env : Upstream) (u : UserCreate) :
    create_user env { u with password := some "" } = create_user env { u with password := none }
    ∧ (∀ tok realm uid tmp, set_user_password env tok realm uid "" tmp = ([], Except.ok ()))
    ∧ ∀ i b, Call.resetCall i b ∉ (create_user env { u with password := some "" }).1 := by
  refine ⟨?_, fun tok realm uid tmp => rfl, ?_⟩
  · unfold create_user
    simp [pyTruthy, rawPayload]
  · intro i b
    unfold create_user get_admin_token create_keycloak_user set_user_password
    split_ifs <;> simp_all [pyTruthy]

/-- Claim C10: the sanitized creation payload never carries a `"password"`
key, its keys are drawn solely from the six creation fields, and every
creation call the pipeline issues has a password-free payload. -/
theorem C10_payload_excludes_password (env : Upstream) (u : UserCreate) :
    "password" ∉ payloadKeys (sanitizePayload (rawPayload u))
    ∧ (∀ k ∈ payloadKeys (sanitizePayload (rawPayload u)),
        k ∈ (["username", "email", "firstName", "lastName", "enabled", "emailVerified"] :
          List String))
    ∧ ∀ p, Call.createCall p ∈ (create_user env u).1 →
        "password" ∉ payloadKeys p := by
  have hkey : "password" ∉ payloadKeys (sanitizePayload (rawPayload u)) := by
    cases he : u.email <;> cases hf : u.firstName <;> cases hl : u.lastName <;>
      simp_all [rawPayload, sanitizePayload, payloadKeys]
  refine ⟨hkey, ?_, ?_⟩
  · intro k hk
    cases he : u.email <;> cases hf : u.firstName <;> cases hl : u.lastName <;>
      simp_all [rawPayload, sanitizePayload, payloadKeys] <;> tauto
  · intro p hp
    unfold create_user get_admin_token create_keycloak_user set_user_password at hp
    split_ifs at hp <;> simp_all

end Waitlist
